import Mathlib

/-!
# Verification of the status-go multi-chain RPC routing layer (`rpc.Client`)

Shallow embedding of the dispatch core in `rpc/client.go` (the file under
`src/unnamed/part_000`): method routing, local handler dispatch, the lazy
per-chain endpoint cache, upstream reconfiguration, and the reflection-based
result binder `setResultFromRPCResponse`.

External collaborators that are not part of the excerpted source (the geth
RPC transport, the `chain` endpoint package, the network-configuration
provider, and the router policy data) are modelled from the specification's
interface descriptions; each such definition carries a doc comment saying so.

Go `interface{}` values flowing through the binder are modelled by `GoValue`,
a universe of JSON-serializable runtime values (null, bool, number, string,
byte slices / raw JSON messages, and one level of objects and arrays — the
shapes the layer actually transports).  Go panics inside the binder are
modelled as the error results that the source's `recover` wrapper converts
them into.
-/

/-- Runtime type tags for the reflection model: the declared element type of a
result slot and the dynamic type of a response value.  `rawMessage` is
`json.RawMessage`, `byteSlice` is `[]byte`; `otherT` stands for any further
concrete Go type (distinct struct types, etc.) that none of the modelled
values inhabit. -/
inductive TypeTag where
  | rawMessage
  | byteSlice
  | stringT
  | numT
  | boolT
  | objT
  | arrT
  | otherT (id : Nat)
deriving DecidableEq, Repr

/-- Primitive JSON-serializable values (the leaves of `GoValue`). -/
inductive GoPrim where
  | pNull
  | pBool (b : Bool)
  | pNum (n : Int)
  | pString (s : String)
deriving DecidableEq, Repr

/-- Model of a dynamically-typed Go value (`interface{}`) as it flows out of a
registered handler and into the result binder.  `vBytes true` is a
`json.RawMessage` (assumed to hold compact valid JSON, the shape produced by
the layer itself); `vBytes false` is a plain `[]byte`. -/
inductive GoValue where
  | vNull
  | vBool (b : Bool)
  | vNum (n : Int)
  | vString (s : String)
  | vBytes (raw : Bool) (data : String)
  | vObject (fields : List (String × GoPrim))
  | vArray (elems : List GoPrim)
deriving DecidableEq, Repr

/-- Model of a Go `error` value.  `errorf` covers `fmt.Errorf`/`errors.New`
values identified by their message; `custom` lets handlers return privately
tagged errors so that verbatim propagation is observable. -/
inductive GoError where
  | errMethodNotFound
  | errorf (msg : String)
  | custom (id : Nat)
deriving DecidableEq, Repr

/-- The source's `ErrMethodNotFound`: the error every blocked method
returns. -/
def ErrMethodNotFound : GoError := GoError.errMethodNotFound

/-- The string an error renders to under the `%s` verb of `fmt.Errorf`. -/
def GoError.message : GoError → String
  | .errMethodNotFound => "The method does not exist/is not available"
  | .errorf m => m
  | .custom id => "custom error " ++ toString id

/-- The dynamic type of a value, `none` when the value is the nil interface
(whose `reflect.ValueOf` is the invalid zero `reflect.Value`). -/
def typeOf : GoValue → Option TypeTag
  | .vNull => none
  | .vBool _ => some .boolT
  | .vNum _ => some .numT
  | .vString _ => some .stringT
  | .vBytes true _ => some .rawMessage
  | .vBytes false _ => some .byteSlice
  | .vObject _ => some .objT
  | .vArray _ => some .arrT

/-- Go assignability restricted to the modelled types: identical types are
assignable, and `[]byte` and `json.RawMessage` are mutually assignable
(identical underlying type, at most one of them named). -/
def assignable (src tgt : TypeTag) : Bool :=
  src == tgt ||
    (src == TypeTag.byteSlice && tgt == TypeTag.rawMessage) ||
    (src == TypeTag.rawMessage && tgt == TypeTag.byteSlice)

/-- Storing a value through `reflect.Value.Set` gives it the slot's static
type; for the byte-like types this flips the `raw` marker, everything else is
unchanged. -/
def coerceTo (tgt : TypeTag) (v : GoValue) : GoValue :=
  match tgt, v with
  | .rawMessage, .vBytes _ d => .vBytes true d
  | .byteSlice, .vBytes _ d => .vBytes false d
  | _, _ => v

/-- Hex digit for the `\u00XX` escapes of `encoding/json`. -/
def hexDigit (n : Nat) : Char :=
  if n < 10 then Char.ofNat (48 + n) else Char.ofNat (87 + n)

/-- Character escaping of `encoding/json` (HTML escaping enabled, its
default): quotes, backslash, control characters, `<` `>` `&`, and the two
line-separator code points. -/
def escapeChar (ch : Char) : String :=
  if ch = '"' then "\\\""
  else if ch = '\\' then "\\\\"
  else if ch = '\n' then "\\n"
  else if ch = '\r' then "\\r"
  else if ch = '\t' then "\\t"
  else if ch.toNat < 32 then
    "\\u00" ++ String.mk [hexDigit (ch.toNat / 16), hexDigit (ch.toNat % 16)]
  else if ch = '<' then "\\u003c"
  else if ch = '>' then "\\u003e"
  else if ch = '&' then "\\u0026"
  else if ch.toNat = 8232 then "\\u2028"
  else if ch.toNat = 8233 then "\\u2029"
  else String.singleton ch

/-- JSON string quoting as performed by `encoding/json`. -/
def quoteJSON (s : String) : String :=
  "\x22" ++ String.join (s.toList.map escapeChar) ++ "\x22"

/-- Base64 alphabet used by `encoding/json` for `[]byte` values. -/
def base64Digit (n : Nat) : Char :=
  ("ABCDEFGHIJKLMNOPQRSTUVWXYZabcdefghijklmnopqrstuvwxyz0123456789+/".toList).getD n 'A'

/-- Standard base64 over a byte list, three bytes to four digits with `=`
padding. -/
def base64Group : List Nat → String
  | [] => ""
  | [a] =>
    String.mk [base64Digit (a / 4), base64Digit (a % 4 * 16)] ++ "=="
  | [a, b] =>
    String.mk [base64Digit (a / 4), base64Digit (a % 4 * 16 + b / 16),
      base64Digit (b % 16 * 4)] ++ "="
  | a :: b :: c :: rest =>
    String.mk [base64Digit (a / 4), base64Digit (a % 4 * 16 + b / 16),
      base64Digit (b % 16 * 4 + c / 64), base64Digit (c % 64)] ++ base64Group rest

/-- Base64 of a string's UTF-8 bytes, the `encoding/json` encoding of
`[]byte`. -/
def base64 (s : String) : String :=
  base64Group (s.toUTF8.toList.map (fun b => b.toNat))

/-- Insert one field into a key-sorted field list (`encoding/json` emits map
keys in sorted order). -/
def insertField (kv : String × GoPrim) : List (String × GoPrim) → List (String × GoPrim)
  | [] => [kv]
  | x :: xs => if compare kv.1 x.1 == Ordering.gt then x :: insertField kv xs else kv :: x :: xs

/-- Sort object fields by key, as `encoding/json` does for maps. -/
def sortFields : List (String × GoPrim) → List (String × GoPrim)
  | [] => []
  | x :: xs => insertField x (sortFields xs)

/-- Comma-join already rendered JSON fragments. -/
def joinComma : List String → String
  | [] => ""
  | [x] => x
  | x :: xs => x ++ "," ++ joinComma xs

/-- Rendering of a primitive value by `encoding/json`. -/
def marshalPrim : GoPrim → String
  | .pNull => "null"
  | .pBool true => "true"
  | .pBool false => "false"
  | .pNum n => toString n
  | .pString s => quoteJSON s

/-- The canonical `encoding/json` rendering of a modelled value: `null` for
nil, sorted compact objects, base64 for `[]byte`, and the raw content for a
`json.RawMessage` (empty raw messages render as `null`, as the nil
`RawMessage` does). -/
def marshalValue : GoValue → String
  | .vNull => "null"
  | .vBool true => "true"
  | .vBool false => "false"
  | .vNum n => toString n
  | .vString s => quoteJSON s
  | .vBytes true data => if data = "" then "null" else data
  | .vBytes false data => quoteJSON (base64 data)
  | .vObject fields =>
    "\x7b" ++ joinComma ((sortFields fields).map (fun kv => quoteJSON kv.1 ++ ":" ++ marshalPrim kv.2)) ++ "\x7d"
  | .vArray elems => "[" ++ joinComma (elems.map marshalPrim) ++ "]"

/-- Model of `json.Marshal` on the modelled value universe.  Every modelled value is
serializable, so the call always succeeds; the `Except` signature mirrors the
source's error propagation for the call. -/
def jsonMarshal (v : GoValue) : Except GoError String := .ok (marshalValue v)

/-- The state of the caller-supplied `result interface{}` argument, as the
reflection pipeline of `setResultFromRPCResponse` observes it:
* `nilIface` — the nil interface (`result == nil`);
* `nonPtr` — a non-pointer value, on which `reflect.Value.Elem` panics;
* `nilPtr` — a typed nil pointer, whose `Elem()` is the zero `reflect.Value`
  (so `.Type()` panics);
* `ptr ty settable cur` — a pointer to storage of element type `ty` currently
  holding `cur`.  `settable` is the `CanSet` status of the pointed-to
  `reflect.Value`; for a value obtained from a non-nil pointer it is `true`,
  the field keeps the general `reflect.Value` state the source checks. -/
inductive ResultSlot where
  | nilIface
  | nonPtr
  | nilPtr
  | ptr (ty : TypeTag) (settable : Bool) (cur : GoValue)
deriving DecidableEq, Repr

/-- Whether a slot type takes the marshal-to-bytes path of the binder. -/
def isByteType (t : TypeTag) : Bool :=
  t == TypeTag.rawMessage || t == TypeTag.byteSlice

/-- The binder `setResultFromRPCResponse(result, response)`: assign the dynamically
typed `response` into `result` via reflection.  The deferred `recover` of the
source converts every reflection panic into an `"invalid result type: …"`
error; here each panicking step returns that error directly.  On success the
updated slot is returned (the source mutates `result` in place). -/
def setResultFromRPCResponse (result : ResultSlot) (response : GoValue) : Except GoError ResultSlot :=
  match result with
  | .nilIface =>
    -- reflect.ValueOf(result).Elem() panics on the invalid zero Value
    .error (.errorf "invalid result type: reflect: call of reflect.Value.Elem on invalid Value")
  | .nonPtr =>
    -- Elem() panics on a non-pointer value
    .error (.errorf "invalid result type: reflect: call of reflect.Value.Elem on non-pointer Value")
  | .nilPtr =>
    -- Elem() of a nil pointer is the zero Value; .Type() panics on it
    .error (.errorf "invalid result type: reflect: call of reflect.Value.Type on zero Value")
  | .ptr ty settable _cur =>
    -- switch reflect.ValueOf(result).Elem().Type():
    -- json.RawMessage / []byte slots receive the marshalled response bytes
    let marshalled : Except GoError GoValue :=
      if isByteType ty then
        match jsonMarshal response with
        | .error e => .error e
        | .ok data => .ok (.vBytes false data)
      else .ok response
    match marshalled with
    | .error e => .error e
    | .ok responseValue =>
      if !settable then
        .error (.errorf "can't assign value to result")
      else
        -- value.Set(responseValue), panics recovered
        match typeOf responseValue with
        | none =>
          .error (.errorf "invalid result type: reflect: Set using zero Value argument")
        | some src =>
          if assignable src ty then
            .ok (.ptr ty settable (coerceTo ty responseValue))
          else
            .error (.errorf "invalid result type: reflect: Set using value of wrong type")

example : marshalValue (.vObject [("x", .pNum 1)]) = "\x7b\x22x\x22:1\x7d" := by rfl

example :
    setResultFromRPCResponse (.ptr .byteSlice true .vNull) (.vObject [("x", .pNum 1)]) =
      .ok (.ptr .byteSlice true (.vBytes false "\x7b\x22x\x22:1\x7d")) := by rfl

example :
    setResultFromRPCResponse (.ptr .stringT true .vNull) (.vString "hi") =
      .ok (.ptr .stringT true (.vString "hi")) := by rfl

example :
    setResultFromRPCResponse (.ptr .stringT true .vNull) (.vNum 3) =
      .error (.errorf "invalid result type: reflect: Set using value of wrong type") := by rfl

/-- A geth RPC connection (`*gethrpc.Client`), identified by the URL it was
dialed against.  Modelled from the spec: the transport itself is an opaque
external collaborator (§6). -/
structure GethClient where
  url : String
deriving DecidableEq, Repr

/-- A per-chain endpoint record (`*chain.ClientWithFallback`): primary
transport, optional fallback transport, chain id.  Modelled from the spec:
the `chain` package is not under `src/`; §6 says its construction "takes a
primary dial handle and optional fallback dial handle plus the chain
identifier". -/
structure ClientWithFallback where
  main : GethClient
  fallback : Option GethClient
  ChainID : Nat
deriving DecidableEq, Repr

/-- Constructor `chain.NewClient(rpcClient, rpcFallbackClient, chainID)`.  Modelled from
the spec (§6): packs the two dial handles and the chain id into an endpoint
record. -/
def chainNewClient (main : GethClient) (fallback : Option GethClient) (chainID : Nat) : ClientWithFallback :=
  ⟨main, fallback, chainID⟩

/-- Constructor `chain.NewSimpleClient(client, chainID)`.  Modelled from the spec (§6):
an endpoint record with a primary transport and no fallback. -/
def NewSimpleClient (main : GethClient) (chainID : Nat) : ClientWithFallback :=
  ⟨main, none, chainID⟩

/-- One entry of the network configuration: chain id, primary RPC URL, and
(possibly empty) fallback URL — the fields of `params.Network` the routing
layer reads. -/
structure Network where
  chainId : Nat
  RPCURL : String
  FallbackURL : String
deriving DecidableEq, Repr

/-- Lookup `NetworkManager.Find(chainID)`.  Modelled from the spec: the
`rpc/network` provider is not under `src/`; §6 specifies a lookup-by-id that
returns the chain's { primary URL, optional fallback URL } or "not found". -/
def findNetwork (networks : List Network) (chainID : Nat) : Option Network :=
  networks.find? (fun n => n.chainId == chainID)

/-- The method router.  Modelled from the spec: `newRouter` /
`routeBlocked` / `routeRemote` live in a file that is not under `src/`;
§4.1 describes a partition of method names into Blocked / Remote /
Local-default, parameterized once by whether an upstream is enabled, with the
blocklist and remote-list being fixed configuration data. -/
structure Router where
  upstreamEnabled : Bool
  blockedMethods : List String
  remoteMethods : List String

/-- Modelled from the spec (§4.1): `IsBlocked` — true when the method must
never be served, regardless of upstream configuration. -/
def Router.routeBlocked (r : Router) (method : String) : Bool :=
  r.blockedMethods.contains method

/-- Modelled from the spec (§4.1): `IsRemote` — true when per-chain routing
is in effect and the method must go to a chain endpoint; always false when no
upstream is enabled. -/
def Router.routeRemote (r : Router) (method : String) : Bool :=
  r.upstreamEnabled && r.remoteMethods.contains method

/-- The fixed router policy data (blocklist and remote-list), external
versioned configuration per §9 of the spec. -/
structure RouterPolicy where
  blocked : List String
  remote : List String

/-- Constructor `newRouter(upstreamEnabled)`.  Modelled from the spec (§4.1): the policy
data is fixed configuration, the boolean flag is supplied at construction. -/
def newRouter (policy : RouterPolicy) (upstreamEnabled : Bool) : Router :=
  ⟨upstreamEnabled, policy.blocked, policy.remote⟩

/-- An opaque `context.Context` value, passed through to handlers and
transports untouched by this layer. -/
structure GoContext where
  id : Nat
deriving DecidableEq, Repr

/-- A registered local handler:
`func(context.Context, uint64, ...interface{}) (interface{}, error)`. -/
def Handler : Type := GoContext → Nat → List GoValue → Except GoError GoValue

/-- Structure `rpc.Client`: the dispatch core.  `localClient` is the source's `local`
field (`local` is reserved in Lean); `rpcClients` is the per-chain endpoint
cache; `handlers` the locally registered handler map.  The mutexes and the
logger of the source carry no sequential meaning and are omitted. -/
structure Client where
  upstreamEnabled : Bool
  upstreamURL : String
  UpstreamChainID : Nat
  localClient : Option GethClient
  upstream : Option ClientWithFallback
  rpcClients : List (Nat × ClientWithFallback)
  router : Router
  networks : List Network
  handlers : List (String × Handler)

/-- Go map lookup on an association list. -/
def mapLookup {V : Type} (m : List (Nat × V)) (k : Nat) : Option V :=
  match m with
  | [] => none
  | (k', v) :: rest => if k' == k then some v else mapLookup rest k

/-- Go map update on an association list: replace the binding if present,
append otherwise. -/
def mapInsert {V : Type} (m : List (Nat × V)) (k : Nat) (v : V) : List (Nat × V) :=
  match m with
  | [] => [(k, v)]
  | (k', v') :: rest => if k' == k then (k, v) :: rest else (k', v') :: mapInsert rest k v

/-- Go map lookup keyed by method name. -/
def strLookup {V : Type} (m : List (String × V)) (k : String) : Option V :=
  match m with
  | [] => none
  | (k', v) :: rest => if k' == k then some v else strLookup rest k

/-- Go map update keyed by method name (last registration wins). -/
def strInsert {V : Type} (m : List (String × V)) (k : String) (v : V) : List (String × V) :=
  match m with
  | [] => [(k, v)]
  | (k', v') :: rest => if k' == k then (k, v) :: rest else (k', v') :: strInsert rest k v

/-- Observable side effects of a call: the telemetry counter, each
`gethrpc.Dial`, and each invocation of a remote or local transport. -/
inductive Effect where
  | countedCall (method : String)
  | dialed (url : String)
  | remoteCalled (chainID : Nat) (method : String)
  | localCalled (method : String)
deriving DecidableEq, Repr

/-- The environment supplying the behavior of the external collaborators:
`dial url` is the outcome of `gethrpc.Dial(url)` (`none` = success, `some e`
= the dial error); `remoteCall` and `localCall` are the opaque transports'
`CallContext`, which may also rewrite the caller's result slot. -/
structure Env where
  dial : String → Option GoError
  remoteCall : GoContext → Option ClientWithFallback → String → List GoValue → ResultSlot → Except GoError Unit × ResultSlot
  localCall : GoContext → GethClient → String → List GoValue → ResultSlot → Except GoError Unit × ResultSlot

/-- Result of an endpoint-cache lookup: the returned `(client, err)` pair
(`ok none` models the source returning a nil client with a nil error), the
client state after the call, and the observable effects. -/
structure CacheOutcome where
  res : Except GoError (Option ClientWithFallback)
  client : Client
  effects : List Effect

/-- Method `Client.getClientUsingCache(chainID)`: return the cached endpoint, the
upstream for its designated chain id, or dial (primary, then fallback if one
is configured) and cache a fresh endpoint record. -/
def Client.getClientUsingCache (c : Client) (env : Env) (chainID : Nat) : CacheOutcome :=
  match mapLookup c.rpcClients chainID with
  | some rpcClient => ⟨.ok (some rpcClient), c, []⟩
  | none =>
    match findNetwork c.networks chainID with
    | none =>
      if c.UpstreamChainID == chainID then
        ⟨.ok c.upstream, c, []⟩
      else
        ⟨.error (.errorf ("could not find network: " ++ toString chainID)), c, []⟩
    | some network =>
      match env.dial network.RPCURL with
      | some e =>
        ⟨.error (.errorf ("dial upstream server: " ++ e.message)), c, [.dialed network.RPCURL]⟩
      | none =>
        let rpcClient : GethClient := ⟨network.RPCURL⟩
        if network.FallbackURL.length > 0 then
          match env.dial network.FallbackURL with
          | some e =>
            ⟨.error (.errorf ("dial upstream server: " ++ e.message)), c,
              [.dialed network.RPCURL, .dialed network.FallbackURL]⟩
          | none =>
            let client := chainNewClient rpcClient (some ⟨network.FallbackURL⟩) chainID
            ⟨.ok (some client), { c with rpcClients := mapInsert c.rpcClients chainID client },
              [.dialed network.RPCURL, .dialed network.FallbackURL]⟩
        else
          let client := chainNewClient rpcClient none chainID
          ⟨.ok (some client), { c with rpcClients := mapInsert c.rpcClients chainID client },
            [.dialed network.RPCURL]⟩

/-- Method `Client.EthClient(chainID)`: the cache lookup, errors passed through. -/
def Client.EthClient (c : Client) (env : Env) (chainID : Nat) : CacheOutcome :=
  let o := c.getClientUsingCache env chainID
  match o.res with
  | .error e => ⟨.error e, o.client, o.effects⟩
  | .ok client => ⟨.ok client, o.client, o.effects⟩

/-- Result of a state-mutating operation returning only an error
(`UpdateUpstreamURL`). -/
structure UpdateOutcome where
  res : Except GoError Unit
  client : Client
  effects : List Effect

/-- Method `Client.UpdateUpstreamURL(url)`: no-op when no upstream exists; otherwise
dial `url` and, on success, swap in the new upstream endpoint record and
URL.  A dial failure is returned unchanged and leaves the client as it
was. -/
def Client.UpdateUpstreamURL (c : Client) (env : Env) (url : String) : UpdateOutcome :=
  match c.upstream with
  | none => ⟨.ok (), c, []⟩
  | some _ =>
    match env.dial url with
    | some e => ⟨.error e, c, [.dialed url]⟩
    | none =>
      ⟨.ok (), { c with upstream := some (NewSimpleClient ⟨url⟩ c.UpstreamChainID), upstreamURL := url },
        [.dialed url]⟩

/-- Method `Client.handler(method)`: concurrently safe handler lookup. -/
def Client.handler (c : Client) (method : String) : Option Handler :=
  strLookup c.handlers method

/-- Method `Client.RegisterHandler(method, handler)`: overwrite-or-add
registration. -/
def Client.RegisterHandler (c : Client) (method : String) (handler : Handler) : Client :=
  { c with handlers := strInsert c.handlers method handler }

/-- Result of a dispatched call: returned error, client state, the caller's
result slot after the call, and the observable effects in order. -/
structure CallOutcome where
  res : Except GoError Unit
  client : Client
  slot : ResultSlot
  effects : List Effect

/-- Method `Client.callMethod`: run the registered handler with
`(ctx, chainID, args...)`; propagate its error unchanged; on success, ignore
the value when the caller passed a nil result, otherwise bind it via
`setResultFromRPCResponse`. -/
def Client.callMethod (c : Client) (ctx : GoContext) (result : ResultSlot) (chainID : Nat)
    (handler : Handler) (args : List GoValue) : CallOutcome :=
  match handler ctx chainID args with
  | .error e => ⟨.error e, c, result, []⟩
  | .ok response =>
    match result with
    | .nilIface => ⟨.ok (), c, result, []⟩
    | _ =>
      match setResultFromRPCResponse result response with
      | .error e => ⟨.error e, c, result, []⟩
      | .ok slot' => ⟨.ok (), c, slot', []⟩

/-- Method `Client.CallContextIgnoringLocalHandlers`: re-check the blocklist, route
remote methods through the endpoint cache and their chain transport, and
everything else to the local endpoint (a reported error when none is
configured). -/
def Client.CallContextIgnoringLocalHandlers (c : Client) (env : Env) (ctx : GoContext)
    (result : ResultSlot) (chainID : Nat) (method : String) (args : List GoValue) : CallOutcome :=
  if c.router.routeBlocked method then
    ⟨.error ErrMethodNotFound, c, result, []⟩
  else if c.router.routeRemote method then
    let o := c.getClientUsingCache env chainID
    match o.res with
    | .error e => ⟨.error e, o.client, result, o.effects⟩
    | .ok clientOpt =>
      let (r, slot') := env.remoteCall ctx clientOpt method args result
      ⟨r, o.client, slot', o.effects ++ [.remoteCalled chainID method]⟩
  else
    match c.localClient with
    | none =>
      -- c.log.Warn(...) is telemetry-free logging, no modelled effect
      ⟨.error (.errorf "missing local JSON-RPC endpoint"), c, result, []⟩
    | some lc =>
      let (r, slot') := env.localCall ctx lc method args result
      ⟨r, c, slot', [.localCalled method]⟩

/-- Method `Client.CallContext`: count the call, refuse blocked methods, prefer a
registered local handler, and otherwise fall through to
`CallContextIgnoringLocalHandlers`. -/
def Client.CallContext (c : Client) (env : Env) (ctx : GoContext) (result : ResultSlot)
    (chainID : Nat) (method : String) (args : List GoValue) : CallOutcome :=
  -- rpcstats.CountCall(method)
  if c.router.routeBlocked method then
    ⟨.error ErrMethodNotFound, c, result, [.countedCall method]⟩
  else
    match c.handler method with
    | some handler =>
      let o := c.callMethod ctx result chainID handler args
      { o with effects := .countedCall method :: o.effects }
    | none =>
      let o := c.CallContextIgnoringLocalHandlers env ctx result chainID method args
      { o with effects := .countedCall method :: o.effects }

/-- The value `context.Background()`, the default context of `Client.Call`. -/
def backgroundContext : GoContext := ⟨0⟩

/-- Method `Client.Call`: the convenience wrapper over `CallContext` with a default
context. -/
def Client.Call (c : Client) (env : Env) (result : ResultSlot) (chainID : Nat)
    (method : String) (args : List GoValue) : CallOutcome :=
  c.CallContext env backgroundContext result chainID method args

/-- Config `params.UpstreamRPCConfig`: the enabled flag and URL read by
`NewClient`. -/
structure UpstreamRPCConfig where
  Enabled : Bool
  URL : String
deriving DecidableEq, Repr

/-- Constructor `rpc.NewClient(client, upstreamChainID, upstream, networks, db)`: build
the client; when the upstream config is enabled, record its chain id and URL
and dial it (a dial failure aborts construction), otherwise leave the
zero-valued upstream fields.  The router is built from the resulting
upstream-enabled flag. -/
def NewClient (env : Env) (policy : RouterPolicy) (client : Option GethClient)
    (upstreamChainID : Nat) (upstream : UpstreamRPCConfig) (networks : List Network) :
    Except GoError Client :=
  let base : Client :=
    { upstreamEnabled := false
      upstreamURL := ""
      UpstreamChainID := 0
      localClient := client
      upstream := none
      rpcClients := []
      router := newRouter policy false
      networks := networks
      handlers := [] }
  if upstream.Enabled then
    match env.dial upstream.URL with
    | some e => .error (.errorf ("dial upstream server: " ++ e.message))
    | none =>
      .ok { base with
              upstreamEnabled := true
              upstreamURL := upstream.URL
              UpstreamChainID := upstreamChainID
              upstream := some (NewSimpleClient ⟨upstream.URL⟩ upstreamChainID)
              router := newRouter policy true }
  else
    .ok { base with router := newRouter policy false }

/-! ## Concrete fixtures used by the witnesses -/

/-- An environment in which every dial succeeds and both transports return
success without touching the slot. -/
def envOk : Env :=
  { dial := fun _ => none
    remoteCall := fun _ _ _ _ s => (.ok (), s)
    localCall := fun _ _ _ _ s => (.ok (), s) }

/-- An environment in which every dial fails with a recognizable error. -/
def envDialsFail : Env :=
  { envOk with dial := fun _ => some (.custom 99) }

/-- A handler returning a plain number. -/
def handlerNum : Handler := fun _ _ _ => .ok (.vNum 42)

/-- A handler returning the structured value of spec Scenario E. -/
def handlerObjX : Handler := fun _ _ _ => .ok (.vObject [("x", .pNum 1)])

/-- A handler failing with a tagged private error. -/
def handlerFail7 : Handler := fun _ _ _ => .error (.custom 7)

/-- A fully populated client: upstream enabled on chain 1, a blocked method
that also has a registered handler, one network without and one with a
fallback URL. -/
def clientA : Client :=
  { upstreamEnabled := true
    upstreamURL := "wss://up"
    UpstreamChainID := 1
    localClient := some ⟨"ipc://local"⟩
    upstream := some (NewSimpleClient ⟨"wss://up"⟩ 1)
    rpcClients := []
    router := ⟨true, ["forbidden_method"], ["eth_getBalance"]⟩
    networks := [⟨1, "wss://primary", ""⟩, ⟨2, "wss://p2", "wss://f2"⟩]
    handlers :=
      [("forbidden_method", handlerNum), ("wallet_getBalance", handlerObjX),
        ("err_method", handlerFail7)] }

/-! ## Helper lemmas -/

/-- A map lookup immediately after inserting the same key hits the inserted
value. -/
theorem mapLookup_insert_self {V : Type} (m : List (Nat × V)) (k : Nat) (v : V) :
    mapLookup (mapInsert m k v) k = some v := by
  induction m with
  | nil => simp [mapInsert, mapLookup]
  | cons head rest ih =>
    obtain ⟨k', v'⟩ := head
    by_cases h : k' = k
    · subst h
      simp [mapInsert, mapLookup]
    · have hb : (k' == k) = false := by simpa using h
      simp [mapInsert, mapLookup, hb, ih]

/-- The handler path never touches the client state and produces no
observable effect. -/
theorem callMethod_frame (c : Client) (ctx : GoContext) (result : ResultSlot) (chainID : Nat)
    (handler : Handler) (args : List GoValue) :
    (c.callMethod ctx result chainID handler args).client = c ∧
    (c.callMethod ctx result chainID handler args).effects = [] := by
  cases hr : handler ctx chainID args with
  | error e => simp [Client.callMethod, hr]
  | ok response =>
    cases result with
    | nilIface => simp [Client.callMethod, hr]
    | nonPtr =>
      cases hs : setResultFromRPCResponse .nonPtr response <;>
        simp [Client.callMethod, hr, hs]
    | nilPtr =>
      cases hs : setResultFromRPCResponse .nilPtr response <;>
        simp [Client.callMethod, hr, hs]
    | ptr ty settable cur =>
      cases hs : setResultFromRPCResponse (.ptr ty settable cur) response <;>
        simp [Client.callMethod, hr, hs]

/-! ## Claim theorems -/

/-- C1: for every method the router classifies as blocked, both `CallContext`
and `CallContextIgnoringLocalHandlers` return the MethodBlocked error
(`ErrMethodNotFound`), for every chain id, upstream configuration, handler
registry state, environment and result slot; the blocked check precedes
handler lookup, so a registered handler cannot resurrect a blocked method. -/
theorem blocked_method_always_method_not_found
    (c : Client) (env : Env) (ctx : GoContext) (result : ResultSlot)
    (chainID : Nat) (method : String) (args : List GoValue)
    (hb : c.router.routeBlocked method = true) :
    (c.CallContext env ctx result chainID method args).res = .error ErrMethodNotFound ∧
    (c.CallContextIgnoringLocalHandlers env ctx result chainID method args).res =
      .error ErrMethodNotFound := by
  unfold Client.CallContext Client.CallContextIgnoringLocalHandlers
  rw [hb]
  simp

/-- C1 witness: `clientA` blocks "forbidden_method" and simultaneously has a
handler registered for it; both entry points still answer
`ErrMethodNotFound`. -/
theorem blocked_method_always_method_not_found_witness :
    (clientA.CallContext envOk ⟨0⟩ .nilIface 1 "forbidden_method" []).res =
      .error ErrMethodNotFound ∧
    (clientA.CallContextIgnoringLocalHandlers envOk ⟨0⟩ .nilIface 1 "forbidden_method" []).res =
      .error ErrMethodNotFound :=
  blocked_method_always_method_not_found clientA envOk ⟨0⟩ .nilIface 1 "forbidden_method" []
    (by decide)

/-- C2: for every non-blocked method with a registered handler, `CallContext`
is exactly the handler path `callMethod` (which runs the handler with
`(ctx, chainID, args...)`) plus the telemetry count: the client state is
untouched, the only effect is the telemetry count (no dial, no remote call,
no local call), and the outcome is independent of the environment that
supplies the network collaborators. -/
theorem callContext_prefers_registered_handler
    (c : Client) (env env' : Env) (ctx : GoContext) (result : ResultSlot)
    (chainID : Nat) (method : String) (args : List GoValue) (h : Handler)
    (hb : c.router.routeBlocked method = false)
    (hh : c.handler method = some h) :
    c.CallContext env ctx result chainID method args =
      { c.callMethod ctx result chainID h args with
          effects := .countedCall method :: (c.callMethod ctx result chainID h args).effects } ∧
    (c.CallContext env ctx result chainID method args).client = c ∧
    (c.CallContext env ctx result chainID method args).effects = [.countedCall method] ∧
    c.CallContext env ctx result chainID method args =
      c.CallContext env' ctx result chainID method args := by
  obtain ⟨hcl, hef⟩ := callMethod_frame c ctx result chainID h args
  refine ⟨?_, ?_, ?_, ?_⟩ <;>
    simp [Client.CallContext, hb, hh, hcl, hef]

/-- C2 witness: the registered "wallet_getBalance" handler of `clientA` is
executed (the bound result is its value 42... here the object), with only the
telemetry effect, identically under an environment whose dials all fail. -/
theorem callContext_prefers_registered_handler_witness :
    clientA.CallContext envOk ⟨3⟩ (.ptr .byteSlice true .vNull) 1 "wallet_getBalance" [] =
      { clientA.callMethod ⟨3⟩ (.ptr .byteSlice true .vNull) 1 handlerObjX [] with
          effects := .countedCall "wallet_getBalance" ::
            (clientA.callMethod ⟨3⟩ (.ptr .byteSlice true .vNull) 1 handlerObjX []).effects } ∧
    (clientA.CallContext envOk ⟨3⟩ (.ptr .byteSlice true .vNull) 1 "wallet_getBalance" []).client =
      clientA ∧
    (clientA.CallContext envOk ⟨3⟩ (.ptr .byteSlice true .vNull) 1 "wallet_getBalance" []).effects =
      [.countedCall "wallet_getBalance"] ∧
    clientA.CallContext envOk ⟨3⟩ (.ptr .byteSlice true .vNull) 1 "wallet_getBalance" [] =
      clientA.CallContext envDialsFail ⟨3⟩ (.ptr .byteSlice true .vNull) 1 "wallet_getBalance" [] :=
  callContext_prefers_registered_handler clientA envOk envDialsFail ⟨3⟩
    (.ptr .byteSlice true .vNull) 1 "wallet_getBalance" [] handlerObjX (by decide) (by rfl)

/-- C9: when the registered handler fails, `CallContext` returns that exact
error value unchanged, the caller's result slot is untouched, and no binding
or network effect takes place. -/
theorem handler_error_propagated_verbatim
    (c : Client) (env : Env) (ctx : GoContext) (result : ResultSlot)
    (chainID : Nat) (method : String) (args : List GoValue) (h : Handler) (e : GoError)
    (hb : c.router.routeBlocked method = false)
    (hh : c.handler method = some h)
    (he : h ctx chainID args = .error e) :
    c.CallContext env ctx result chainID method args =
      ⟨.error e, c, result, [.countedCall method]⟩ := by
  unfold Client.CallContext Client.callMethod
  rw [hb, hh]
  simp only [Bool.false_eq_true, if_false]
  rw [he]

/-- C9 witness: the failing "err_method" handler's tagged error `custom 7`
comes back exactly, and the byte slot passed in is unchanged. -/
theorem handler_error_propagated_verbatim_witness :
    clientA.CallContext envOk ⟨1⟩ (.ptr .byteSlice true (.vNum 5)) 3 "err_method" [] =
      ⟨.error (.custom 7), clientA, .ptr .byteSlice true (.vNum 5),
        [.countedCall "err_method"]⟩ :=
  handler_error_propagated_verbatim clientA envOk ⟨1⟩ (.ptr .byteSlice true (.vNum 5)) 3
    "err_method" [] handlerFail7 (.custom 7) (by decide) (by rfl) (by rfl)

/-- C3 counterexample: for chain 2 of `clientA` a fallback URL is configured,
so the first of two sequential cache lookups performs two dials
(primary and fallback), not one — "exactly one dial in total" fails. -/
theorem getClientUsingCache_fallback_two_dials :
    ((clientA.getClientUsingCache envOk 2).effects ++
        ((clientA.getClientUsingCache envOk 2).client.getClientUsingCache envOk 2).effects) =
      [.dialed "wss://p2", .dialed "wss://f2"] ∧
    ((clientA.getClientUsingCache envOk 2).effects ++
        ((clientA.getClientUsingCache envOk 2).client.getClientUsingCache envOk 2).effects).length ≠
      1 := by
  constructor
  · rfl
  · decide

/-- C3 (amended): starting from a state where the chain id is uncached and
its configuration dials successfully, the first lookup dials each configured
URL exactly once (one dial when no fallback URL is configured, two when one
is), caches the endpoint, and a second sequential lookup performs no network
I/O at all and returns the identical cached endpoint. -/
theorem getClientUsingCache_sequential_idempotent
    (env : Env) (c : Client) (chainID : Nat) (n : Network)
    (hc : mapLookup c.rpcClients chainID = none)
    (hn : findNetwork c.networks chainID = some n)
    (hd1 : env.dial n.RPCURL = none)
    (hd2 : n.FallbackURL.length > 0 → env.dial n.FallbackURL = none) :
    ∃ cl : ClientWithFallback,
      (c.getClientUsingCache env chainID).res = .ok (some cl) ∧
      (c.getClientUsingCache env chainID).client.getClientUsingCache env chainID =
        ⟨.ok (some cl), (c.getClientUsingCache env chainID).client, []⟩ ∧
      (c.getClientUsingCache env chainID).effects =
        (if n.FallbackURL.length > 0 then [.dialed n.RPCURL, .dialed n.FallbackURL]
         else [.dialed n.RPCURL]) := by
  by_cases hf : n.FallbackURL.length > 0
  · refine ⟨chainNewClient ⟨n.RPCURL⟩ (some ⟨n.FallbackURL⟩) chainID, ?_, ?_, ?_⟩ <;>
      simp [Client.getClientUsingCache, hc, hn, hd1, hd2 hf, hf, mapLookup_insert_self]
  · refine ⟨chainNewClient ⟨n.RPCURL⟩ none chainID, ?_, ?_, ?_⟩ <;>
      simp [Client.getClientUsingCache, hc, hn, hd1, hf, mapLookup_insert_self]

/-- C3 witness: chain 1 of `clientA` has no fallback; the first lookup dials
once, the second returns the cached endpoint with no effects. -/
theorem getClientUsingCache_sequential_idempotent_witness :
    ∃ cl : ClientWithFallback,
      (clientA.getClientUsingCache envOk 1).res = .ok (some cl) ∧
      (clientA.getClientUsingCache envOk 1).client.getClientUsingCache envOk 1 =
        ⟨.ok (some cl), (clientA.getClientUsingCache envOk 1).client, []⟩ ∧
      (clientA.getClientUsingCache envOk 1).effects =
        (if ("" : String).length > 0 then [.dialed "wss://primary", .dialed ""]
         else [.dialed "wss://primary"]) :=
  getClientUsingCache_sequential_idempotent envOk clientA 1 ⟨1, "wss://primary", ""⟩
    (by rfl) (by rfl) (by rfl) (by intro h; exact absurd h (by decide))

/-- C5: `UpdateUpstreamURL` is a nil no-op without an upstream; with one, a
dial failure returns the dial error itself and leaves the whole client —
upstream endpoint record and URL included — unchanged, while a dial success
atomically replaces both the upstream record and the stored URL. -/
theorem updateUpstreamURL_spec (c : Client) (env : Env) (url : String) :
    (c.upstream = none → c.UpdateUpstreamURL env url = ⟨.ok (), c, []⟩) ∧
    (∀ u, c.upstream = some u → ∀ e, env.dial url = some e →
      c.UpdateUpstreamURL env url = ⟨.error e, c, [.dialed url]⟩) ∧
    (∀ u, c.upstream = some u → env.dial url = none →
      c.UpdateUpstreamURL env url =
        ⟨.ok (),
          { c with upstream := some (NewSimpleClient ⟨url⟩ c.UpstreamChainID), upstreamURL := url },
          [.dialed url]⟩) := by
  refine ⟨fun hu => ?_, fun u hu e hd => ?_, fun u hu hd => ?_⟩
  · simp [Client.UpdateUpstreamURL, hu]
  · simp [Client.UpdateUpstreamURL, hu, hd]
  · simp [Client.UpdateUpstreamURL, hu, hd]

/-- C5 witness: a failed dial of "wss://new-endpoint" leaves `clientA` (its
upstream record and URL) exactly as before and returns the dial error. -/
theorem updateUpstreamURL_spec_witness :
    clientA.UpdateUpstreamURL envDialsFail "wss://new-endpoint" =
      ⟨.error (.custom 99), clientA, [.dialed "wss://new-endpoint"]⟩ :=
  (updateUpstreamURL_spec clientA envDialsFail "wss://new-endpoint").2.1
    (NewSimpleClient ⟨"wss://up"⟩ 1) (by rfl) (.custom 99) (by rfl)

/-- C6: an uncached chain id with no network configuration that is not the
upstream's designated id yields the "could not find network" error, with the
client (in particular the cache map) unchanged and no observable effect, so a
later call for the same id can still succeed once configuration exists. -/
theorem getClientUsingCache_network_not_found
    (c : Client) (env : Env) (chainID : Nat)
    (hc : mapLookup c.rpcClients chainID = none)
    (hn : findNetwork c.networks chainID = none)
    (hu : c.UpstreamChainID ≠ chainID) :
    c.getClientUsingCache env chainID =
      ⟨.error (.errorf ("could not find network: " ++ toString chainID)), c, []⟩ := by
  have hb : (c.UpstreamChainID == chainID) = false := by simpa using hu
  simp [Client.getClientUsingCache, hc, hn, hb]

/-- C6 witness: chain 5 has no configuration in `clientA` and is not the
designated upstream chain 1; the lookup reports NetworkNotFound and returns
the client unchanged with no effects. -/
theorem getClientUsingCache_network_not_found_witness :
    clientA.getClientUsingCache envOk 5 =
      ⟨.error (.errorf "could not find network: 5"), clientA, []⟩ :=
  getClientUsingCache_network_not_found clientA envOk 5 (by rfl) (by rfl) (by decide)

/-- C7: for an uncached chain id whose configuration declares a fallback URL,
a failed dial of the primary — or of the fallback even after a successful
primary dial — returns the dial error, constructs no endpoint record, and
leaves the cache untouched. -/
theorem getClientUsingCache_dial_failure_fatal
    (c : Client) (env : Env) (chainID : Nat) (n : Network)
    (hc : mapLookup c.rpcClients chainID = none)
    (hn : findNetwork c.networks chainID = some n)
    (hf : n.FallbackURL.length > 0) :
    (∀ e, env.dial n.RPCURL = some e →
      c.getClientUsingCache env chainID =
        ⟨.error (.errorf ("dial upstream server: " ++ e.message)), c, [.dialed n.RPCURL]⟩) ∧
    (env.dial n.RPCURL = none → ∀ e, env.dial n.FallbackURL = some e →
      c.getClientUsingCache env chainID =
        ⟨.error (.errorf ("dial upstream server: " ++ e.message)), c,
          [.dialed n.RPCURL, .dialed n.FallbackURL]⟩) := by
  constructor
  · intro e hd
    simp [Client.getClientUsingCache, hc, hn, hd]
  · intro hd1 e hd2
    simp [Client.getClientUsingCache, hc, hn, hd1, hd2, hf]

/-- C7 witness: chain 2 of `clientA` declares the fallback "wss://f2"; in an
environment where the primary dials fine but the fallback dial fails, the
lookup fails with the dial error after both dial attempts and caches
nothing. -/
theorem getClientUsingCache_dial_failure_fatal_witness :
    clientA.getClientUsingCache
        { envOk with dial := fun u => if u = "wss://f2" then some (.custom 4) else none } 2 =
      ⟨.error (.errorf ("dial upstream server: " ++ GoError.message (.custom 4))), clientA,
        [.dialed "wss://p2", .dialed "wss://f2"]⟩ :=
  (getClientUsingCache_dial_failure_fatal clientA
      { envOk with dial := fun u => if u = "wss://f2" then some (.custom 4) else none } 2
      ⟨2, "wss://p2", "wss://f2"⟩ (by rfl) (by rfl) (by decide)).2
    (by simp) (.custom 4) (by simp)

/-- Coercion to a non-byte slot type is the identity. -/
theorem coerceTo_eq_self (ty : TypeTag) (v : GoValue) (hbt : isByteType ty = false) :
    coerceTo ty v = v := by
  cases ty <;> cases v <;> simp_all [coerceTo, isByteType]

/-- C4: binding into a non-nil settable slot stores the canonical JSON
encoding of the response when the slot's element type is `json.RawMessage` or
`[]byte`; otherwise it assigns the response directly, succeeding exactly when
the response's runtime type is assignable to the slot's element type, and on
success the stored value is the response itself. -/
theorem setResult_binding_round_trip (ty : TypeTag) (cur response : GoValue) :
    ((ty = .rawMessage ∨ ty = .byteSlice) →
      ∀ data, jsonMarshal response = .ok data →
        setResultFromRPCResponse (.ptr ty true cur) response =
          .ok (.ptr ty true (.vBytes (ty == .rawMessage) data))) ∧
    (ty ≠ .rawMessage → ty ≠ .byteSlice →
      (((∃ slot', setResultFromRPCResponse (.ptr ty true cur) response = .ok slot') ↔
        (∃ src, typeOf response = some src ∧ assignable src ty = true)) ∧
      (∀ slot', setResultFromRPCResponse (.ptr ty true cur) response = .ok slot' →
        slot' = .ptr ty true response))) := by
  constructor
  · rintro (rfl | rfl) data hm <;>
      (simp only [jsonMarshal, Except.ok.injEq] at hm; subst hm; rfl)
  · intro h1 h2
    have hbt : isByteType ty = false := by cases ty <;> simp_all [isByteType]
    have hco := coerceTo_eq_self ty response hbt
    cases hto : typeOf response with
    | none =>
      refine ⟨⟨?_, ?_⟩, ?_⟩
      · rintro ⟨slot', hs⟩
        simp [setResultFromRPCResponse, hbt, hto] at hs
      · rintro ⟨src, hsrc, -⟩
        cases hsrc
      · intro slot' hs
        simp [setResultFromRPCResponse, hbt, hto] at hs
    | some src =>
      by_cases ha : assignable src ty = true
      · refine ⟨⟨fun _ => ⟨src, rfl, ha⟩, fun _ => ?_⟩, ?_⟩
        · exact ⟨.ptr ty true (coerceTo ty response),
            by simp [setResultFromRPCResponse, hbt, hto, ha]⟩
        · intro slot' hs
          simp [setResultFromRPCResponse, hbt, hto, ha, hco] at hs
          exact hs.symm
      · have ha' : assignable src ty = false := by simpa using ha
        refine ⟨⟨?_, ?_⟩, ?_⟩
        · rintro ⟨slot', hs⟩
          simp [setResultFromRPCResponse, hbt, hto, ha'] at hs
        · rintro ⟨src', hsrc, ha2⟩
          injection hsrc with hsrc'
          subst hsrc'
          exact absurd ha2 (by simp [ha'])
        · intro slot' hs
          simp [setResultFromRPCResponse, hbt, hto, ha'] at hs

/-- C4 witness, spec Scenario E: binding the structured response
`map[string]int(x:1)` into a `[]byte` slot stores exactly the JSON text. -/
theorem setResult_binding_round_trip_witness :
    setResultFromRPCResponse (.ptr .byteSlice true .vNull) (.vObject [("x", .pNum 1)]) =
      .ok (.ptr .byteSlice true (.vBytes false "\x7b\x22x\x22:1\x7d")) :=
  (setResult_binding_round_trip .byteSlice .vNull (.vObject [("x", .pNum 1)])).1
    (Or.inr rfl) "\x7b\x22x\x22:1\x7d" (by rfl)

/-- C8: the binder always terminates with success or a reported `fmt.Errorf`
error (every reflection panic is recovered): a non-settable target yields
"can't assign value to result", an invalid target pointer (nil interface,
non-pointer, nil pointer) yields an "invalid result type" error, and on the
direct-assignment path an incompatible (or absent) runtime type yields an
"invalid result type" error. -/
theorem setResult_total_clean_errors (result : ResultSlot) (response : GoValue) :
    ((∃ slot', setResultFromRPCResponse result response = .ok slot') ∨
      (∃ m, setResultFromRPCResponse result response = .error (.errorf m))) ∧
    (∀ ty cur, setResultFromRPCResponse (.ptr ty false cur) response =
      .error (.errorf "can't assign value to result")) ∧
    (setResultFromRPCResponse .nilIface response =
      .error (.errorf "invalid result type: reflect: call of reflect.Value.Elem on invalid Value")) ∧
    (setResultFromRPCResponse .nonPtr response =
      .error (.errorf "invalid result type: reflect: call of reflect.Value.Elem on non-pointer Value")) ∧
    (setResultFromRPCResponse .nilPtr response =
      .error (.errorf "invalid result type: reflect: call of reflect.Value.Type on zero Value")) ∧
    (∀ ty cur src, isByteType ty = false → typeOf response = some src →
      assignable src ty = false →
      setResultFromRPCResponse (.ptr ty true cur) response =
        .error (.errorf "invalid result type: reflect: Set using value of wrong type")) ∧
    (∀ ty cur, isByteType ty = false → typeOf response = none →
      setResultFromRPCResponse (.ptr ty true cur) response =
        .error (.errorf "invalid result type: reflect: Set using zero Value argument")) := by
  refine ⟨?_, ?_, rfl, rfl, rfl, ?_, ?_⟩
  · cases result with
    | nilIface => exact .inr ⟨_, rfl⟩
    | nonPtr => exact .inr ⟨_, rfl⟩
    | nilPtr => exact .inr ⟨_, rfl⟩
    | ptr ty s cur =>
      by_cases hbt : isByteType ty = true
      · have hty : ty = .rawMessage ∨ ty = .byteSlice := by
          cases ty <;> simp_all [isByteType]
        cases s
        · exact .inr ⟨_, by rcases hty with rfl | rfl <;> rfl⟩
        · rcases hty with rfl | rfl
          · exact .inl ⟨_, rfl⟩
          · exact .inl ⟨_, rfl⟩
      · have hbt' : isByteType ty = false := by simpa using hbt
        cases s
        · exact .inr ⟨"can't assign value to result",
            by simp [setResultFromRPCResponse, hbt']⟩
        · cases hto : typeOf response with
          | none =>
            exact .inr ⟨"invalid result type: reflect: Set using zero Value argument",
              by simp [setResultFromRPCResponse, hbt', hto]⟩
          | some src =>
            by_cases ha : assignable src ty = true
            · exact .inl ⟨.ptr ty true (coerceTo ty response),
                by simp [setResultFromRPCResponse, hbt', hto, ha]⟩
            · have ha' : assignable src ty = false := by simpa using ha
              exact .inr ⟨"invalid result type: reflect: Set using value of wrong type",
                by simp [setResultFromRPCResponse, hbt', hto, ha']⟩
  · intro ty cur
    cases ty <;> rfl
  · intro ty cur src hbt hto ha
    simp [setResultFromRPCResponse, hbt, hto, ha]
  · intro ty cur hbt hto
    simp [setResultFromRPCResponse, hbt, hto]

/-- C8 witness: a non-settable string slot produces the "can't assign value
to result" error (and nothing worse) for a string response. -/
theorem setResult_total_clean_errors_witness :
    setResultFromRPCResponse (.ptr .stringT false .vNull) (.vString "v") =
      .error (.errorf "can't assign value to result") :=
  (setResult_total_clean_errors (.ptr .stringT false .vNull) (.vString "v")).2.1 .stringT .vNull

/-- C10: constructing the client with upstream disabled leaves the upstream
endpoint nil and the designated upstream chain id at its zero value 0; for
an uncached, unconfigured chain id 0 the cache lookup then answers the
upstream special case, returning a nil endpoint with a nil error (no dial,
no "could not find network" error), and `EthClient` passes (nil, nil)
through. -/
theorem upstream_disabled_nil_client_nil_error
    (env env2 : Env) (policy : RouterPolicy) (localC : Option GethClient)
    (upstreamChainID : Nat) (upstream : UpstreamRPCConfig) (networks : List Network)
    (hd : upstream.Enabled = false)
    (hn : findNetwork networks 0 = none) :
    ∃ c : Client,
      NewClient env policy localC upstreamChainID upstream networks = .ok c ∧
      c.upstream = none ∧
      c.UpstreamChainID = 0 ∧
      c.getClientUsingCache env2 0 = ⟨.ok none, c, []⟩ ∧
      c.EthClient env2 0 = ⟨.ok none, c, []⟩ := by
  refine ⟨{ upstreamEnabled := false, upstreamURL := "", UpstreamChainID := 0,
            localClient := localC, upstream := none, rpcClients := [],
            router := newRouter policy false, networks := networks, handlers := [] },
          ?_, rfl, rfl, ?_, ?_⟩
  · simp [NewClient, hd]
  · simp [Client.getClientUsingCache, mapLookup, hn]
  · simp [Client.EthClient, Client.getClientUsingCache, mapLookup, hn]

/-- C10 witness: a concrete disabled-upstream construction (the constructor
argument 7 for the upstream chain id is not recorded) yields (nil, nil) from
the cache lookup and from `EthClient` for chain id 0. -/
theorem upstream_disabled_nil_client_nil_error_witness :
    ∃ c : Client,
      NewClient envOk ⟨["forbidden_method"], ["eth_getBalance"]⟩ none 7
          ⟨false, "wss://ignored"⟩ [] = .ok c ∧
      c.upstream = none ∧
      c.UpstreamChainID = 0 ∧
      c.getClientUsingCache envOk 0 = ⟨.ok none, c, []⟩ ∧
      c.EthClient envOk 0 = ⟨.ok none, c, []⟩ :=
  upstream_disabled_nil_client_nil_error envOk envOk ⟨["forbidden_method"], ["eth_getBalance"]⟩
    none 7 ⟨false, "wss://ignored"⟩ [] (by rfl) (by rfl)
